import Mathlib

/-!
Verification of the vibealerts announcement classification, deduplication and
metrics-extraction pipeline.

Shallow embedding conventions:
* Python strings are `List Char`; `str.lower()` is an ASCII lowercase map
  (every string the pipeline compares against is ASCII).
* Python `Decimal` and `float` values are modelled as `ℚ` (all constants in the
  code are exactly representable; IEEE rounding is not modelled).
* Python `None` becomes `Option.none`; Python truthiness on an optional number
  (`if x:`) is `none`-or-zero falsity, modelled by `truthy`.
* Wall-clock dependent defaults (current fiscal year) take the current year and
  month as explicit arguments.
-/

/-- ASCII lowercase of one character, the fragment of Python str.lower used by
the pipeline (all keywords compared against are ASCII). -/
def asciiLower (c : Char) : Char :=
  if 'A' ≤ c ∧ c ≤ 'Z' then Char.ofNat (c.toNat + 32) else c

/-- Python str.lower over a string modelled as a character list. -/
def lowerL (s : List Char) : List Char := s.map asciiLower

/-- The characters of a Lean string literal. -/
def strL (s : String) : List Char := s.data

/-- Python substring test `needle in hay`, as a structurally recursive Bool
function (so that concrete instances evaluate inside the kernel). -/
def substr (needle : List Char) : List Char → Bool
  | [] => needle.isEmpty
  | h :: t => needle.isPrefixOf (h :: t) || substr needle t

/-- An apostrophe character, used inside several classifier keywords. -/
def apos : Char := '\''

/-- Number of keywords of the list occurring in the text (Python adds a fixed
weight once per keyword found, not per occurrence). -/
def countHits (kws : List (List Char)) (t : List Char) : Nat :=
  (kws.filter (fun kw => substr kw t)).length

/-- The five classification outcomes of AnnouncementClassifier.classify. -/
inductive AnnType where
  | EARNINGS_CALL
  | CORPORATE_ACTION
  | NEWS_ARTICLE
  | QUARTERLY_RESULT
  | OTHER
deriving DecidableEq, Repr

namespace AnnouncementClassifier

/-- classifier.py QUARTERLY_RESULT_KEYWORDS. -/
def QUARTERLY_RESULT_KEYWORDS : List (List Char) :=
  [strL "financial results", strL "unaudited results", strL "audited results",
   strL "quarterly results", strL "half year results", strL "annual results",
   strL "outcome of board meeting",
   strL "q1 results", strL "q2 results", strL "q3 results", strL "q4 results",
   strL "fy20", strL "fy21", strL "fy22", strL "fy23", strL "fy24",
   strL "fy25", strL "fy26"]

/-- classifier.py EARNINGS_CALL_KEYWORDS. -/
def EARNINGS_CALL_KEYWORDS : List (List Char) :=
  [strL "transcript", strL "earnings call", strL "conference call",
   strL "investor call", strL "concall", strL "earnings group call",
   strL "analyst meet"]

/-- classifier.py CORPORATE_ACTION_KEYWORDS. -/
def CORPORATE_ACTION_KEYWORDS : List (List Char) :=
  [strL "acquisition", strL "merger", strL "takeover", strL "buyback",
   strL "rights issue", strL "bonus issue", strL "dividend",
   strL "disclosure under regulation", strL "substantial acquisition",
   strL "shareholding", strL "allotment", strL "debenture",
   strL "preferential", strL "open offer"]

/-- classifier.py NEWS_KEYWORDS (the two keywords with an apostrophe are built
with the apos character). -/
def NEWS_KEYWORDS : List (List Char) :=
  [strL "rebounds", strL "rebounded", strL "surges", strL "plunges",
   strL "stock price", strL "shares rise", strL "shares fall",
   strL "market movement", strL "trading", strL "analysts", strL "upgrade",
   strL "downgrade", strL "target price", strL "why",
   strL "here" ++ [apos] ++ strL "s why",
   strL "tumbles", strL "soars", strL "pares", strL "intraday",
   strL "today" ++ [apos] ++ strL "s",
   strL "after", strL "following", strL "on the back of", strL "jumps",
   strL "drops", strL "falls", strL "rises", strL "gains", strL "losses",
   strL "stock rebounds", strL "stock surges", strL "stock plunges",
   strL "order book", strL "secures", strL "wins contract", strL "bags order"]

/-- Source markers that make is_rss_news true (classify, PRIORITY RULE 1). -/
def RSS_SOURCE_MARKERS : List (List Char) :=
  [strL "economic_times", strL "livemint", strL "moneycontrol", strL "rss"]

/-- Publication names checked against the combined text (classify heuristics). -/
def PUBLICATION_NAMES : List (List Char) :=
  [strL "livemint", strL "economic times", strL "et markets", strL "moneycontrol"]

/-- classify news_patterns (PRIORITY RULE 2). -/
def NEWS_PATTERNS : List (List Char) :=
  [strL "stock rebounds", strL "stock surges", strL "stock plunges",
   strL "pares loss", strL "pares gain", strL "intraday",
   strL "after securing", strL "after announcing", strL "following",
   strL "here" ++ [apos] ++ strL "s why", strL "this is why"]

/-- Quarter tokens of PRIORITY RULE 3. -/
def QUARTER_TOKENS : List (List Char) :=
  [strL "q1", strL "q2", strL "q3", strL "q4", strL "quarter"]

/-- Movement tokens of PRIORITY RULE 3. -/
def MOVEMENT_TOKENS : List (List Char) :=
  [strL "rebounds", strL "surges", strL "plunges", strL "pares",
   strL "rises", strL "falls"]

/-- Winner selection: Python max over the score dict in insertion order
(EARNINGS_CALL, CORPORATE_ACTION, NEWS_ARTICLE, QUARTERLY_RESULT), keeping the
earliest key on ties. -/
def bestOf (e c n q : ℚ) : AnnType × ℚ :=
  let b1 : AnnType × ℚ := (AnnType.EARNINGS_CALL, e)
  let b2 := if c > b1.2 then (AnnType.CORPORATE_ACTION, c) else b1
  let b3 := if n > b2.2 then (AnnType.NEWS_ARTICLE, n) else b2
  if q > b3.2 then (AnnType.QUARTERLY_RESULT, q) else b3

/-- Final step of classify: if the maximal score is exactly 0 return
(OTHER, 0.0), else the winner with confidence min(max_score / 8.0, 1.0). -/
def finalize (best : AnnType × ℚ) : AnnType × ℚ :=
  if best.2 = 0 then (AnnType.OTHER, 0) else (best.1, min (best.2 / 8) 1)

/-- PRIORITY RULE 1 test of classify: any rss marker inside source.lower(). -/
def is_rss_news (source : List Char) : Bool :=
  RSS_SOURCE_MARKERS.any (fun m => substr m (lowerL source))

/-- Regulation 29/30 mention (classify heuristic). -/
def hasRegulation (text : List Char) : Bool :=
  substr (strL "regulation 29") text || substr (strL "regulation 30") text

/-- Results/financial mention deciding where the regulation bonus goes. -/
def regIsResult (text : List Char) : Bool :=
  substr (strL "results") text || substr (strL "financial") text

/-- PRIORITY RULE 3 trigger: quarter token and movement token and rss origin. -/
def rule3 (text source : List Char) : Bool :=
  (QUARTER_TOKENS.any (fun q => substr q text))
    && (MOVEMENT_TOKENS.any (fun m => substr m text))
    && is_rss_news source

/-- Final EARNINGS_CALL score: 2 per keyword hit, plus 1 when the attachment
text is longer than 5000 characters and the score so far is positive (the
Python code checks the accumulated score, which at that point is exactly twice
the hit count). -/
def scoreE (text : List Char) (attLong : Bool) : ℚ :=
  let base : ℚ := 2 * (countHits EARNINGS_CALL_KEYWORDS text : ℚ)
  base + (if attLong && decide (0 < base) then 1 else 0)

/-- Final CORPORATE_ACTION score: 1.5 per keyword hit, plus 1 for a
regulation 29/30 mention without results/financial wording. -/
def scoreC (text : List Char) : ℚ :=
  3/2 * (countHits CORPORATE_ACTION_KEYWORDS text : ℚ)
    + (if hasRegulation text && !(regIsResult text) then 1 else 0)

/-- Final NEWS_ARTICLE score, the sum of every bonus the source code adds to
this key, in source order: rss-source bonus 3, 2 per news keyword, density
bonus 2 at three or more news keywords, publication-name bonus 2, 1.5 per
news phrase pattern, question bonus 1, PRIORITY RULE 3 bonus 2. -/
def scoreN (text source : List Char) : ℚ :=
  (if is_rss_news source then 3 else 0)
    + 2 * (countHits NEWS_KEYWORDS text : ℚ)
    + (if 3 ≤ countHits NEWS_KEYWORDS text then 2 else 0)
    + (if PUBLICATION_NAMES.any (fun w => substr w text) then 2 else 0)
    + 3/2 * (countHits NEWS_PATTERNS text : ℚ)
    + (if substr (strL "?") text || substr (strL "why") text
          || substr (strL "here" ++ [apos] ++ strL "s") text then 1 else 0)
    + (if rule3 text source then 2 else 0)

/-- Final QUARTERLY_RESULT score: 1 per keyword hit, plus 1 for a
regulation 29/30 mention with results/financial wording, minus 1 when
PRIORITY RULE 3 fires. -/
def scoreQ (text source : List Char) : ℚ :=
  (countHits QUARTERLY_RESULT_KEYWORDS text : ℚ)
    + (if hasRegulation text && regIsResult text then 1 else 0)
    - (if rule3 text source then 1 else 0)

/-- Body of AnnouncementClassifier.classify after the text has been combined
and truncated. attLong stands for len(attachment_text) > 5000, the only other
use of the attachment text. The Python code mutates a score dict in place;
each final dict value is recovered here as the per-category sum of the same
contributions (scoreE, scoreC, scoreN, scoreQ). -/
def classifyWith (text : List Char) (attLong : Bool) (source : List Char) :
    AnnType × ℚ :=
  finalize (bestOf (scoreE text attLong) (scoreC text)
    (scoreN text source) (scoreQ text source))

/-- The combined lower-cased text scored by classify: the description, a
space, and the first 1000 characters of the attachment text. -/
def combinedText (description attachment_text : List Char) : List Char :=
  lowerL (description ++ [' '] ++ attachment_text.take 1000)

/-- AnnouncementClassifier.classify: combine description with the first 1000
characters of the attachment text, lowercase, score, pick the winner. -/
def classify (description attachment_text source : List Char) : AnnType × ℚ :=
  classifyWith (combinedText description attachment_text)
    (decide (5000 < attachment_text.length)) source

/-- The four category keyword lists combined (used to state keyword-freeness
of a text across every category at once). -/
def ALL_CATEGORY_KEYWORDS : List (List Char) :=
  EARNINGS_CALL_KEYWORDS ++ CORPORATE_ACTION_KEYWORDS
    ++ NEWS_KEYWORDS ++ QUARTERLY_RESULT_KEYWORDS

end AnnouncementClassifier

namespace SourceMonitor

/-- monitoring/service.py SourceMonitor.is_quarterly_result exclude list. -/
def exclude_keywords : List (List Char) :=
  [strL "newspaper publication", strL "newspaper advertisement",
   strL "published in newspaper", strL "publication of financial results",
   strL "newspaper notice", strL "press release publication",
   strL "advertisement in newspaper", strL "notice published in",
   strL "copy of newspaper", strL "intimation of newspaper publication",
   strL "submission of newspaper", strL "compliance certificate",
   strL "record date", strL "book closure", strL "agm notice",
   strL "egm notice", strL "intimation of loss of share certificate",
   strL "duplicate share certificate", strL "postal ballot", strL "e-voting"]

/-- monitoring/service.py SourceMonitor.is_quarterly_result include list. -/
def result_keywords : List (List Char) :=
  [strL "financial result", strL "financial results", strL "quarterly result",
   strL "quarterly results", strL "quarterly and", strL "unaudited financial",
   strL "unaudited results", strL "audited results", strL "standalone results",
   strL "consolidated results", strL "quarterly and year to date",
   strL "q1", strL "q2", strL "q3", strL "q4",
   strL "quarter ended", strL "half year ended", strL "year ended",
   strL "fy20", strL "fy21", strL "fy22", strL "fy23", strL "fy24",
   strL "fy25", strL "fy26",
   strL "outcome of board meeting", strL "submission of financial results",
   strL "intimation of financial results", strL "approved financial results",
   strL "revenue", strL "profit", strL "loss", strL "ebitda", strL "eps",
   strL "net profit", strL "gross profit", strL "pat", strL "pbt"]

/-- SourceMonitor.is_quarterly_result: lower-case the text, reject immediately
on any administrative exclude phrase, else accept on any include keyword. -/
def is_quarterly_result (text : List Char) : Bool :=
  let text_lower := lowerL text
  if exclude_keywords.any (fun kw => substr kw text_lower) then false
  else result_keywords.any (fun kw => substr kw text_lower)

end SourceMonitor

/-! URL normalization used by the deduplication key builder
(urllib.parse.urlparse / urlunparse as called in
MonitoringService._process_announcement). -/

/-- Characters allowed in a URL scheme after the first (CPython scheme_chars). -/
def isSchemeChar (c : Char) : Bool :=
  ('a' ≤ c && c ≤ 'z') || ('A' ≤ c && c ≤ 'Z') || ('0' ≤ c && c ≤ '9')
    || c = '+' || c = '-' || c = '.'

/-- ASCII letter test (CPython requires the scheme to start with a letter). -/
def isAsciiAlpha (c : Char) : Bool :=
  ('a' ≤ c && c ≤ 'z') || ('A' ≤ c && c ≤ 'Z')

/-- Split a list at the first occurrence of the delimiter: returns
(before, after-without-delimiter) when found. -/
def splitOnFirst (delim : Char) : List Char → Option (List Char × List Char)
  | [] => none
  | c :: t =>
    if c = delim then some ([], t)
    else match splitOnFirst delim t with
      | some (b, a) => some (c :: b, a)
      | none => none

/-- The components of urllib.parse.urlparse that the dedup key builder uses. -/
structure UrlParts where
  scheme : List Char
  netloc : List Char
  path : List Char
  query : List Char
  fragment : List Char
deriving DecidableEq, Repr

/-- Scheme division step of CPython urlsplit: take a lowercased scheme when a
colon exists at position above 0, the first character is an ASCII letter and
every character before the colon is a scheme character; otherwise leave the
url untouched with an empty scheme. -/
def splitScheme (u : List Char) : List Char × List Char :=
  match splitOnFirst ':' u with
  | some (before, after) =>
    match before with
    | [] => ([], u)
    | c0 :: rest =>
      if isAsciiAlpha c0 && rest.all isSchemeChar && before.all isSchemeChar
      then (lowerL before, after) else ([], u)
  | none => ([], u)

/-- Netloc division step of CPython urlsplit: when the remainder begins with
two slashes, the netloc runs until the next slash, question mark or hash. -/
def splitNetloc (u : List Char) : List Char × List Char :=
  match u with
  | '/' :: '/' :: rest =>
    (rest.takeWhile (fun c => c ≠ '/' && c ≠ '?' && c ≠ '#'),
     rest.dropWhile (fun c => c ≠ '/' && c ≠ '?' && c ≠ '#'))
  | _ => ([], u)

/-- Params division step of CPython urlparse: inside the last path segment,
split at the first semicolon. -/
def splitParams (u : List Char) : List Char × List Char :=
  let revSeg := (u.reverse.takeWhile (fun c => c ≠ '/')).reverse
  match splitOnFirst ';' revSeg with
  | none => (u, [])
  | some (segBefore, segAfter) =>
    (u.take (u.length - revSeg.length) ++ segBefore, segAfter)

/-- urllib.parse.urlparse restricted to the five components the pipeline
reads (params are split off the path exactly as CPython does, and then
discarded by the caller). Fragment and query are split after the netloc, as
in CPython; the netloc itself never contains a hash or question mark. -/
def urlparse (u : List Char) : UrlParts :=
  let (scheme, rest) := splitScheme u
  let (netloc, rest) := splitNetloc rest
  let (rest, fragment) := match splitOnFirst '#' rest with
    | some (b, a) => (b, a)
    | none => (rest, [])
  let (rest, query) := match splitOnFirst '?' rest with
    | some (b, a) => (b, a)
    | none => (rest, [])
  let (path, _params) := splitParams rest
  { scheme := scheme, netloc := netloc, path := path,
    query := query, fragment := fragment }

/-- Python str.rstrip applied with the slash character (removes every
trailing slash of the path). -/
def rstripSlash (p : List Char) : List Char :=
  (p.reverse.dropWhile (fun c => c = '/')).reverse

/-- urllib.parse.urlunparse applied to
(https, netloc, path, no params, no query, no fragment), following CPython
urlunsplit: since https uses a netloc, the two slashes and the netloc are
prepended whenever the netloc is non-empty or the path does not already start
with two slashes, adding a leading slash to a non-empty path that lacks one;
the scheme and a colon always lead. -/
def urlunparseHttps (netloc path : List Char) : List Char :=
  let url :=
    if netloc ≠ [] || path.take 2 ≠ strL "//" then
      strL "//" ++ netloc
        ++ (if path ≠ [] && path.take 1 ≠ strL "/" then '/' :: path else path)
    else path
  strL "https:" ++ url

/-- URL normalization of MonitoringService._process_announcement: force the
https scheme, keep the netloc, strip trailing slashes from the path, drop
params, query and fragment. -/
def normalizeUrl (u : List Char) : List Char :=
  urlunparseHttps (urlparse u).netloc (rstripSlash (urlparse u).path)

/-! UTF-8 encoding and MD5, the `.encode()` and `hashlib.md5(...).hexdigest()`
calls of the dedup key builder. MD5 is implemented directly (RFC 1321) over
byte lists, with 32-bit words as naturals reduced mod 2^32. -/

/-- UTF-8 encoding of a single code point. -/
def utf8Char (c : Char) : List Nat :=
  let n := c.toNat
  if n < 128 then [n]
  else if n < 2048 then [192 + n / 64, 128 + n % 64]
  else if n < 65536 then [224 + n / 4096, 128 + n / 64 % 64, 128 + n % 64]
  else [240 + n / 262144, 128 + n / 4096 % 64, 128 + n / 64 % 64, 128 + n % 64]

/-- Python str.encode(): UTF-8 bytes of the string. -/
def utf8Encode (s : List Char) : List Nat := s.flatMap utf8Char

/-- Reduction to a 32-bit word. -/
def w32 (n : Nat) : Nat := n % 4294967296

/-- 32-bit left rotation (argument below 2^32). -/
def rotl32 (x s : Nat) : Nat := w32 (x * 2 ^ s + x / 2 ^ (32 - s))

/-- Bitwise complement within 32 bits. -/
def not32 (x : Nat) : Nat := 4294967295 - x

/-- The 64 MD5 sine-table constants. -/
def md5K : List Nat :=
  [0xd76aa478, 0xe8c7b756, 0x242070db, 0xc1bdceee,
   0xf57c0faf, 0x4787c62a, 0xa8304613, 0xfd469501,
   0x698098d8, 0x8b44f7af, 0xffff5bb1, 0x895cd7be,
   0x6b901122, 0xfd987193, 0xa679438e, 0x49b40821,
   0xf61e2562, 0xc040b340, 0x265e5a51, 0xe9b6c7aa,
   0xd62f105d, 0x02441453, 0xd8a1e681, 0xe7d3fbc8,
   0x21e1cde6, 0xc33707d6, 0xf4d50d87, 0x455a14ed,
   0xa9e3e905, 0xfcefa3f8, 0x676f02d9, 0x8d2a4c8a,
   0xfffa3942, 0x8771f681, 0x6d9d6122, 0xfde5380c,
   0xa4beea44, 0x4bdecfa9, 0xf6bb4b60, 0xbebfbc70,
   0x289b7ec6, 0xeaa127fa, 0xd4ef3085, 0x04881d05,
   0xd9d4d039, 0xe6db99e5, 0x1fa27cf8, 0xc4ac5665,
   0xf4292244, 0x432aff97, 0xab9423a7, 0xfc93a039,
   0x655b59c3, 0x8f0ccc92, 0xffeff47d, 0x85845dd1,
   0x6fa87e4f, 0xfe2ce6e0, 0xa3014314, 0x4e0811a1,
   0xf7537e82, 0xbd3af235, 0x2ad7d2bb, 0xeb86d391]

/-- The 64 MD5 per-round left-rotation amounts. -/
def md5S : List Nat :=
  [7, 12, 17, 22, 7, 12, 17, 22, 7, 12, 17, 22, 7, 12, 17, 22,
   5, 9, 14, 20, 5, 9, 14, 20, 5, 9, 14, 20, 5, 9, 14, 20,
   4, 11, 16, 23, 4, 11, 16, 23, 4, 11, 16, 23, 4, 11, 16, 23,
   6, 10, 15, 21, 6, 10, 15, 21, 6, 10, 15, 21, 6, 10, 15, 21]

/-- MD5 nonlinear function and message-word index for round i. -/
def md5FG (i b c d : Nat) : Nat × Nat :=
  if i < 16 then (Nat.lor (Nat.land b c) (Nat.land (not32 b) d), i)
  else if i < 32 then (Nat.lor (Nat.land d b) (Nat.land (not32 d) c),
    (5 * i + 1) % 16)
  else if i < 48 then (Nat.xor b (Nat.xor c d), (3 * i + 5) % 16)
  else (Nat.xor c (Nat.lor b (not32 d)), (7 * i) % 16)

/-- One MD5 round applied to the running (a, b, c, d) state; M gives the
sixteen message words of the current block. -/
def md5Round (M : Nat → Nat) (st : Nat × Nat × Nat × Nat) (i : Nat) :
    Nat × Nat × Nat × Nat :=
  let (a, b, c, d) := st
  let (f, g) := md5FG i b c d
  let rot := rotl32 (w32 (a + f + (md5K.getD i 0) + M g)) (md5S.getD i 0)
  (d, w32 (b + rot), b, c)

/-- Little-endian 32-bit word assembled from four bytes of the list. -/
def leWord (bytes : List Nat) (j : Nat) : Nat :=
  bytes.getD (4 * j) 0 + 256 * bytes.getD (4 * j + 1) 0
    + 65536 * bytes.getD (4 * j + 2) 0 + 16777216 * bytes.getD (4 * j + 3) 0

/-- One 64-byte MD5 block folded into the chaining state. -/
def md5Block (st : Nat × Nat × Nat × Nat) (block : List Nat) :
    Nat × Nat × Nat × Nat :=
  let (a0, b0, c0, d0) := st
  let (a, b, c, d) := (List.range 64).foldl (md5Round (leWord block)) st
  (w32 (a0 + a), w32 (b0 + b), w32 (c0 + c), w32 (d0 + d))

/-- MD5 padding: a 0x80 byte, zeros to 56 mod 64, then the bit length as
eight little-endian bytes. -/
def md5Pad (msg : List Nat) : List Nat :=
  let len := msg.length
  let zeros := (119 - len % 64) % 64
  let bitLen := (8 * len) % 18446744073709551616
  msg ++ [128] ++ List.replicate zeros 0
    ++ (List.range 8).map (fun j => bitLen / 256 ^ j % 256)

/-- Division of the padded message into 64-byte blocks. -/
def chunks64 : List Nat → List (List Nat)
  | [] => []
  | x :: xs => (x :: xs).take 64 :: chunks64 (xs.drop 63)
termination_by l => l.length
decreasing_by
  simp only [List.length_cons, List.length_drop]
  omega

/-- Little-endian bytes of a 32-bit word. -/
def leBytes (x : Nat) : List Nat :=
  [x % 256, x / 256 % 256, x / 65536 % 256, x / 16777216 % 256]

/-- The 16-byte MD5 digest of a byte list. -/
def md5 (msg : List Nat) : List Nat :=
  let init : Nat × Nat × Nat × Nat :=
    (0x67452301, 0xefcdab89, 0x98badcfe, 0x10325476)
  let (a, b, c, d) := (chunks64 (md5Pad msg)).foldl md5Block init
  leBytes a ++ leBytes b ++ leBytes c ++ leBytes d

/-- A lowercase hexadecimal digit. -/
def hexDigit (n : Nat) : Char :=
  if n < 10 then Char.ofNat (48 + n) else Char.ofNat (87 + n)

/-- Lowercase hexadecimal rendering of a byte list (hexdigest). -/
def hexOfBytes : List Nat → List Char
  | [] => []
  | b :: t => hexDigit (b / 16) :: hexDigit (b % 16) :: hexOfBytes t

/-- hashlib.md5(s.encode()).hexdigest() as a character list. -/
def md5Hex (s : List Char) : List Char := hexOfBytes (md5 (utf8Encode s))

/-- database/models.py Announcement (the fields the monitoring pipeline
reads; the observed-at timestamp is carried as an opaque natural). -/
structure Announcement where
  source : List Char
  symbol : List Char
  date : List Char
  description : List Char
  attachment_url : List Char
  attachment_text : List Char
deriving DecidableEq, Repr

/-- Feed-origin test of MonitoringService._process_announcement:
rss inside source.lower() and a truthy (non-empty) attachment URL. -/
def usesRssKey (ann : Announcement) : Bool :=
  substr (strL "rss") (lowerL ann.source) && !(ann.attachment_url.isEmpty)

/-- Deduplication key builder of MonitoringService._process_announcement:
for feed announcements with an attachment URL, processed:rss: followed by the
first 16 hex characters of the MD5 of the normalized URL; otherwise
processed:symbol: followed by the first 12 hex characters of the MD5 of the
description. -/
def buildDedupKey (ann : Announcement) : List Char :=
  if usesRssKey ann then
    strL "processed:rss:" ++ (md5Hex (normalizeUrl ann.attachment_url)).take 16
  else
    strL "processed:" ++ ann.symbol ++ strL ":"
      ++ (md5Hex ann.description).take 12

/-! Data model of database/models.py used by the extraction and analysis
stages. Decimal and float fields are rationals; nullable fields are options. -/

/-- database/models.py Sentiment. -/
inductive Sentiment where
  | STRONG_BEAT
  | BEAT
  | INLINE
  | MISS
  | MAJOR_MISS
deriving DecidableEq, Repr

/-- database/models.py ExtractedMetrics (extraction duration is carried as a
natural and not computed, wall-clock time being outside the embedding). -/
structure ExtractedMetrics where
  symbol : List Char
  quarter : Nat
  fiscal_year : Nat
  revenue : Option ℚ := none
  profit_after_tax : Option ℚ := none
  eps : Option ℚ := none
  revenue_prev_quarter : Option ℚ := none
  profit_prev_quarter : Option ℚ := none
  revenue_prev_year : Option ℚ := none
  profit_prev_year : Option ℚ := none
  ebitda : Option ℚ := none
  operating_profit : Option ℚ := none
  total_income : Option ℚ := none
  extraction_method : List Char := []
  confidence_score : ℚ := 0
  extraction_time_ms : Nat := 0
deriving DecidableEq, Repr

/-- database/models.py AnalystEstimates (source tag and update time omitted;
the analysis reads only the three estimate fields and the key triple). -/
structure AnalystEstimates where
  symbol : List Char
  quarter : Nat
  fiscal_year : Nat
  revenue_est : Option ℚ := none
  profit_est : Option ℚ := none
  eps_est : Option ℚ := none
deriving DecidableEq, Repr

/-- Python truthiness of an optional numeric value: None and 0 are falsy. -/
def truthy (o : Option ℚ) : Bool :=
  match o with
  | none => false
  | some v => decide (v ≠ 0)

/-! Metrics parser of extraction/service.py. The regular expressions are
rendered as explicit leftmost-search scanners: the keyword alternations are
listed in the preference order of the regex (optional pieces greedy first),
the lazy gap between keyword and number never crosses a newline (the dot of
the pattern), and the locale number format (groups of 2-3 digits separated by
commas, up to two decimals) follows the two alternatives of the number
pattern, the 1-3 digit alternative first. The patterns are IGNORECASE, so the
scanners run over the lowercased text. \s+ inside keywords is rendered as a
single space. -/

namespace MetricsParser

/-- Decimal digit test. -/
def isDigitC (c : Char) : Bool := '0' ≤ c && c ≤ '9'

/-- Python regex whitespace class (ASCII part). -/
def isPyWs (c : Char) : Bool :=
  c = ' ' || c = '\t' || c = '\n' || c = '\r' || c = '\x0b' || c = '\x0c'

/-- Natural number denoted by a digit list. -/
def digitsToNat (ds : List Char) : Nat :=
  ds.foldl (fun acc c => 10 * acc + (c.toNat - 48)) 0

/-- The exact value of a Python Decimal: mantissa digits and a decimal scale. -/
structure DecimalNum where
  mantissa : Int
  scale : Nat
deriving DecidableEq, Repr

/-- Rational value of a Decimal. -/
def decToQ (d : DecimalNum) : ℚ := (d.mantissa : ℚ) / 10 ^ d.scale

/-- Greedy comma groups of the number pattern, structurally recursive on a
fuel argument (each consumed group shortens the list by at least two, so the
list length is fuel enough): one comma followed by two or three digits,
repeated; a group is consumed only when at least two digits follow the comma.
Returns the collected group digits and the remainder. -/
def commaGroupsF : Nat → List Char → List Char × List Char
  | fuel + 1, ',' :: rest =>
    let e := rest.takeWhile isDigitC
    let rest' := rest.dropWhile isDigitC
    if 2 ≤ e.length then
      let g := e.take 3
      let (more, fin) := commaGroupsF fuel (e.drop 3 ++ rest')
      (g ++ more, fin)
    else ([], ',' :: rest)
  | _, l => ([], l)

/-- Greedy comma groups of the number pattern. -/
def commaGroups (l : List Char) : List Char × List Char :=
  commaGroupsF l.length l

/-- Optional decimal part: a dot followed by one or two digits (greedy). -/
def decimalTail : List Char → List Char × List Char
  | '.' :: r =>
    let f := r.takeWhile isDigitC
    if 1 ≤ f.length then (f.take 2, f.drop 2 ++ r.dropWhile isDigitC)
    else ([], '.' :: r)
  | l => ([], l)

/-- First number alternative after the leading 1-3 digits: comma groups then
the optional decimal part. Returns integer digits, decimal digits, remainder. -/
def branch1Tail (d1 : List Char) (l : List Char) :
    List Char × List Char × List Char :=
  let (groups, l1) := commaGroups l
  let (decs, l2) := decimalTail l1
  (d1 ++ groups, decs, l2)

/-- Second number alternative after the full leading digit run: only the
optional decimal part, no comma groups. -/
def branch2Tail (d1 : List Char) (l : List Char) :
    List Char × List Char × List Char :=
  let (decs, l2) := decimalTail l
  (d1, decs, l2)

/-- Decimal value built from a sign and digit lists. -/
def mkDec (neg : Bool) (intDs decDs : List Char) : DecimalNum :=
  let m : Int := (digitsToNat (intDs ++ decDs) : Int)
  { mantissa := if neg then -m else m, scale := decDs.length }

/-- The currency unit check of the unit-suffixed patterns: optional regex
whitespace then cr (the prefix of both cr and crore alternatives). -/
def unitFollows (l : List Char) : Bool :=
  (strL "cr").isPrefixOf (l.dropWhile isPyWs)

/-- Number match at the current position for the unit-suffixed patterns
(revenue, profit, ebitda): an optional minus sign, then the first alternative
when the digit run has at most three digits, falling back to the plain-digits
alternative, each checked against the unit continuation. -/
def scanNumberUnit (l : List Char) : Option DecimalNum :=
  let (neg, l1) := match l with
    | '-' :: t => (true, t)
    | _ => (false, l)
  let d := l1.takeWhile isDigitC
  let rest := l1.dropWhile isDigitC
  if d.isEmpty then none
  else
    let tryB1 :=
      if d.length ≤ 3 then
        let (ints, decs, rem) := branch1Tail d rest
        if unitFollows rem then some (mkDec neg ints decs) else none
      else none
    match tryB1 with
    | some v => some v
    | none =>
      let (ints, decs, rem) := branch2Tail d rest
      if unitFollows rem then some (mkDec neg ints decs) else none

/-- Number match at the current position for the bare pattern (eps): with at
most three leading digits the first alternative always succeeds; with four or
more, the first alternative matches exactly three digits and stops. -/
def scanNumberBare (l : List Char) : Option DecimalNum :=
  let (neg, l1) := match l with
    | '-' :: t => (true, t)
    | _ => (false, l)
  let d := l1.takeWhile isDigitC
  let rest := l1.dropWhile isDigitC
  if d.isEmpty then none
  else if d.length ≤ 3 then
    let (ints, decs, _) := branch1Tail d rest
    some (mkDec neg ints decs)
  else some (mkDec neg (d.take 3) [])

/-- Lazy gap scan of the unit-suffixed patterns: at each position first try
the number (shortest gap wins), never cross a newline, and remember whether
lakh appeared inside the gap (the matched span), in which case the parsed
value is divided by 100. -/
def findNumberUnit (lakh : Bool) : List Char → Option DecimalNum
  | [] => none
  | c :: t =>
    match scanNumberUnit (c :: t) with
    | some v => some (if lakh then { v with scale := v.scale + 2 } else v)
    | none =>
      if c = '\n' then none
      else findNumberUnit (lakh || (strL "lakh").isPrefixOf (c :: t)) t

/-- Lazy gap scan of the bare pattern (same newline and lakh rules). -/
def findNumberBare (lakh : Bool) : List Char → Option DecimalNum
  | [] => none
  | c :: t =>
    match scanNumberBare (c :: t) with
    | some v => some (if lakh then { v with scale := v.scale + 2 } else v)
    | none =>
      if c = '\n' then none
      else findNumberBare (lakh || (strL "lakh").isPrefixOf (c :: t)) t

/-- At one text position, try each keyword alternative in regex preference
order, running the gap scan after the keyword. -/
def tryKeywordsAt (kws : List (List Char))
    (gap : List Char → Option DecimalNum) (l : List Char) : Option DecimalNum :=
  kws.findSome? (fun kw =>
    if kw.isPrefixOf l then gap (l.drop kw.length) else none)

/-- Leftmost search of a metric pattern: earliest keyword start wins. -/
def searchMetric (kws : List (List Char))
    (gap : List Char → Option DecimalNum) : List Char → Option DecimalNum
  | [] => none
  | l@(_ :: t) =>
    match tryKeywordsAt kws gap l with
    | some v => some v
    | none => searchMetric kws gap t

/-- Keyword alternatives of the revenue pattern
(?:total\s+)?(?:income|revenue)(?:\s+from\s+operations)?, greedy options
first. -/
def revenueKws : List (List Char) :=
  [strL "total income from operations", strL "total income",
   strL "total revenue from operations", strL "total revenue",
   strL "income from operations", strL "income",
   strL "revenue from operations", strL "revenue"]

/-- Keyword alternatives of the profit pattern
(?:profit\s+(?:after\s+tax|attributable)|net\s+profit|pat). -/
def profitKws : List (List Char) :=
  [strL "profit after tax", strL "profit attributable",
   strL "net profit", strL "pat"]

/-- Keyword alternative of the ebitda pattern. -/
def ebitdaKws : List (List Char) := [strL "ebitda"]

/-- Keyword alternatives of the eps pattern
(?:basic\s+)?(?:earnings|eps)(?:\s+per\s+share)?. -/
def epsKws : List (List Char) :=
  [strL "basic earnings per share", strL "basic earnings",
   strL "basic eps per share", strL "basic eps",
   strL "earnings per share", strL "earnings",
   strL "eps per share", strL "eps"]

/-- MetricsParser._extract_metric for the unit-suffixed patterns. -/
def extractUnitMetric (kws : List (List Char)) (tl : List Char) :
    Option DecimalNum :=
  searchMetric kws (findNumberUnit false) tl

/-- MetricsParser._extract_metric for the bare eps pattern. -/
def extractBareMetric (kws : List (List Char)) (tl : List Char) :
    Option DecimalNum :=
  searchMetric kws (findNumberBare false) tl

/-- Digit between 1 and 4 as a quarter number. -/
def q14 (c : Char) : Option Nat :=
  if c = '1' then some 1
  else if c = '2' then some 2
  else if c = '3' then some 3
  else if c = '4' then some 4
  else none

/-- Quarter pattern match at one position:
q\s*([1-4]) | quarter\s+([1-4]) | ([1-4])(st|nd|rd|th)\s+quarter,
alternatives in order. -/
def quarterAt (l : List Char) : Option Nat :=
  let alt1 := match l with
    | 'q' :: rest =>
      match rest.dropWhile isPyWs with
      | d :: _ => q14 d
      | [] => none
    | _ => none
  let alt2 :=
    if (strL "quarter").isPrefixOf l then
      match l.drop 7 with
      | c :: r =>
        if isPyWs c then
          match (c :: r).dropWhile isPyWs with
          | d :: _ => q14 d
          | [] => none
        else none
      | [] => none
    else none
  let alt3 := match l with
    | d :: rest =>
      match q14 d with
      | some n =>
        if (strL "st").isPrefixOf rest || (strL "nd").isPrefixOf rest
            || (strL "rd").isPrefixOf rest || (strL "th").isPrefixOf rest then
          match rest.drop 2 with
          | c :: r =>
            if isPyWs c
                && (strL "quarter").isPrefixOf ((c :: r).dropWhile isPyWs)
            then some n else none
          | [] => none
        else none
      | none => none
    | [] => none
  (alt1.orElse (fun _ => alt2)).orElse (fun _ => alt3)

/-- Leftmost quarter pattern match. -/
def findQuarter : List Char → Option Nat
  | [] => none
  | l@(_ :: t) => (quarterAt l).orElse (fun _ => findQuarter t)

/-- MetricsParser._extract_quarter: leftmost match, defaulting to quarter 3. -/
def extract_quarter (tl : List Char) : Nat := (findQuarter tl).getD 3

/-- Fiscal year pattern match at one position:
(?:fy|f\.?y\.?|fiscal\s+year)[\s\-]*(\d{2,4}), prefixes in regex backtracking
order, then optional whitespace or dashes, then two to four digits (greedy). -/
def fyAt (l : List Char) : Option Nat :=
  ([strL "fy", strL "f.y.", strL "f.y", strL "fy.",
    strL "fiscal year"]).findSome? (fun pfx =>
    if pfx.isPrefixOf l then
      let r := (l.drop pfx.length).dropWhile (fun c => isPyWs c || c = '-')
      let e := r.takeWhile isDigitC
      if 2 ≤ e.length then some (digitsToNat (e.take 4)) else none
    else none)

/-- Leftmost fiscal year pattern match. -/
def findFy : List Char → Option Nat
  | [] => none
  | l@(_ :: t) => (fyAt l).orElse (fun _ => findFy t)

/-- MetricsParser._extract_fiscal_year: two-digit years map below 50 to the
2000s and otherwise to the 1900s; with no match, the current Indian fiscal
year (April to March) computed from the supplied current year and month. -/
def extract_fiscal_year (tl : List Char) (nowYear nowMonth : Nat) : Nat :=
  match findFy tl with
  | some y =>
    if y < 100 then (if y < 50 then 2000 + y else 1900 + y) else y
  | none => if 4 ≤ nowMonth then nowYear else nowYear - 1

/-- First anchor pattern of _extract_comparisons:
(?:previous\s+year|corresponding\s+period|year\s+ago); returns the text after
the anchor. -/
def anchorAt1 (l : List Char) : Option (List Char) :=
  ([strL "previous year", strL "corresponding period",
    strL "year ago"]).findSome? (fun a =>
    if a.isPrefixOf l then some (l.drop a.length) else none)

/-- Second anchor pattern of _extract_comparisons: fy\s*\d{2}. -/
def anchorAt2 (l : List Char) : Option (List Char) :=
  if (strL "fy").isPrefixOf l then
    match (l.drop 2).dropWhile isPyWs with
    | d1 :: d2 :: rest =>
      if isDigitC d1 && isDigitC d2 then some rest else none
    | _ => none
  else none

/-- Leftmost anchor match. -/
def findAnchor (f : List Char → Option (List Char)) :
    List Char → Option (List Char)
  | [] => none
  | l@(_ :: t) => (f l).orElse (fun _ => findAnchor f t)

/-- The lazy section group (.*?)(?:\n\n|$) with DOTALL: everything up to the
first blank line, or the whole remainder. -/
def upToDoubleNewline : List Char → List Char
  | [] => []
  | '\n' :: '\n' :: _ => []
  | c :: t => c :: upToDoubleNewline t

/-- Keep a just-extracted comparison value only when truthy (the source
stores it under if prev, so a zero Decimal is dropped). -/
def keepTruthyDec (o : Option DecimalNum) : Option DecimalNum :=
  match o with
  | some v => if v.mantissa ≠ 0 then some v else none
  | none => none

/-- MetricsParser._extract_comparisons: find the first anchor (second pattern
only when the first matches nowhere), take at most 500 characters of the
section up to a blank line, and re-run the revenue and profit patterns inside
it. Returns (previous-year revenue, previous-year profit). -/
def extract_comparisons (tl : List Char) :
    Option DecimalNum × Option DecimalNum :=
  let sec := match findAnchor anchorAt1 tl with
    | some aft => some ((upToDoubleNewline aft).take 500)
    | none =>
      match findAnchor anchorAt2 tl with
      | some aft => some ((upToDoubleNewline aft).take 500)
      | none => none
  match sec with
  | none => (none, none)
  | some s =>
    (keepTruthyDec (extractUnitMetric revenueKws s),
     keepTruthyDec (extractUnitMetric profitKws s))

/-- MetricsParser._calculate_confidence: 0.4 for a truthy revenue, 0.4 for a
truthy profit after tax, 0.2 for a truthy eps (Python if metrics.revenue:
treats both None and 0 as absent). -/
def calcConfidence (m : ExtractedMetrics) : ℚ :=
  (if truthy m.revenue then 2/5 else 0)
    + (if truthy m.profit_after_tax then 2/5 else 0)
    + (if truthy m.eps then 1/5 else 0)

/-- MetricsParser.parse: extract quarter and fiscal year, the four metrics,
the year-over-year comparatives, then the confidence score of the assembled
record. The extraction duration is not modelled (left 0). -/
def parse (text symbol : List Char) (nowYear nowMonth : Nat) :
    ExtractedMetrics :=
  let tl := lowerL text
  let m : ExtractedMetrics :=
    { symbol := symbol
      quarter := extract_quarter tl
      fiscal_year := extract_fiscal_year tl nowYear nowMonth
      revenue := (extractUnitMetric revenueKws tl).map decToQ
      profit_after_tax := (extractUnitMetric profitKws tl).map decToQ
      eps := (extractBareMetric epsKws tl).map decToQ
      ebitda := (extractUnitMetric ebitdaKws tl).map decToQ
      revenue_prev_year := (extract_comparisons tl).1.map decToQ
      profit_prev_year := (extract_comparisons tl).2.map decToQ }
  { m with confidence_score := calcConfidence m }

end MetricsParser

/-! Characters of the string literals of analysis/engine.py and
database/models.py that are not ASCII (the repository files carry them as the
code points listed here); they are reproduced exactly. -/

/-- Icon of STRONG_BEAT (engine.py). -/
def engStrongIcon : List Char :=
  [Char.ofNat 0x11f, Char.ofNat 0x178, Char.ofNat 0x161, Char.ofNat 0x20ac]

/-- Icon of BEAT (engine.py). -/
def engBeatIcon : List Char :=
  [Char.ofNat 0xe2, Char.ofNat 0x153, Char.ofNat 0x2026]

/-- Icon of INLINE (engine.py). -/
def engInlineIcon : List Char :=
  [Char.ofNat 0xe2, Char.ofNat 0xa1, Char.ofNat 0xef, Char.ofNat 0xb8]

/-- Icon of MISS (engine.py). -/
def engMissIcon : List Char :=
  [Char.ofNat 0xe2, Char.ofNat 0x161, Char.ofNat 0xa0, Char.ofNat 0xef,
   Char.ofNat 0xb8]

/-- Icon of MAJOR_MISS (engine.py). -/
def engMajorMissIcon : List Char :=
  [Char.ofNat 0x11f, Char.ofNat 0x178, Char.ofNat 0x201d, Char.ofNat 0xb4]

/-- Default action icon of AnalysisResult (models.py). -/
def defaultActionIcon : List Char :=
  [Char.ofNat 0x201a, Char.ofNat 0xfb, Char.ofNat 0xb0, Char.ofNat 0xd4,
   Char.ofNat 0x220f, Char.ofNat 0xe8]

/-- database/models.py AnalysisResult. -/
structure AnalysisResult where
  symbol : List Char
  quarter : Nat
  fiscal_year : Nat
  revenue_beat_pct : Option ℚ := none
  profit_beat_pct : Option ℚ := none
  eps_beat_pct : Option ℚ := none
  yoy_revenue_growth : Option ℚ := none
  yoy_profit_growth : Option ℚ := none
  qoq_revenue_growth : Option ℚ := none
  qoq_profit_growth : Option ℚ := none
  sentiment : Sentiment := Sentiment.INLINE
  sentiment_score : ℚ := 0
  action_text : List Char := []
  action_emoji : List Char := defaultActionIcon
deriving DecidableEq, Repr

/-! Number rendering used by the Python format specifications the pipeline
applies to its rationals: fixed-point with round-half-even, an optional
explicit plus sign, and thousands grouping for the ,.0f specification. -/

/-- Round-half-even of num/den over naturals (den positive). -/
def roundHalfEvenNat (num den : Nat) : Nat :=
  let fl := num / den
  let r := num % den
  if 2 * r < den then fl
  else if den < 2 * r then fl + 1
  else if fl % 2 = 0 then fl else fl + 1

/-- Decimal digits of a natural. -/
def natDigits (n : Nat) : List Char := (Nat.repr n).data

/-- Zero padding on the left up to the requested width. -/
def padLeftZeros (k : Nat) (ds : List Char) : List Char :=
  List.replicate (k - ds.length) '0' ++ ds

/-- Fixed-point rendering of a rational with the given number of decimals:
the sign of the value, then the rounded magnitude (Python float formatting
keeps the sign even when the magnitude rounds to zero). -/
def fmtFixed (decimals : Nat) (plusSign : Bool) (x : ℚ) : List Char :=
  let a := roundHalfEvenNat (x.num.natAbs * 10 ^ decimals) x.den
  let sign := if x.num < 0 then strL "-"
    else if plusSign then strL "+" else ([] : List Char)
  let intPart := a / 10 ^ decimals
  let decPart := a % 10 ^ decimals
  sign ++ natDigits intPart
    ++ (if decimals = 0 then []
        else '.' :: padLeftZeros decimals (natDigits decPart))

/-- Comma insertion every three digits, working from the right
(input and output reversed). -/
def group3Rev : List Char → List Char
  | a :: b :: c :: d :: rest => a :: b :: c :: ',' :: group3Rev (d :: rest)
  | l => l

/-- Thousands grouping of a digit list. -/
def groupDigits (ds : List Char) : List Char := (group3Rev ds.reverse).reverse

/-- The Python ,.0f specification: sign, rounded magnitude, thousands commas. -/
def fmtGrouped0 (x : ℚ) : List Char :=
  (if x.num < 0 then strL "-" else [])
    ++ groupDigits (natDigits (roundHalfEvenNat x.num.natAbs x.den))

namespace AnalysisEngine

/-- engine.py sentiment threshold strong_beat. -/
def threshold_strong_beat : ℚ := 10

/-- engine.py sentiment threshold beat. -/
def threshold_beat : ℚ := 5

/-- engine.py sentiment threshold inline_lower. -/
def threshold_inline_lower : ℚ := -5

/-- engine.py sentiment threshold miss. -/
def threshold_miss : ℚ := -10

/-- engine.py metric weight for profit. -/
def weight_profit : ℚ := 1/2

/-- engine.py metric weight for revenue. -/
def weight_revenue : ℚ := 3/10

/-- engine.py metric weight for eps. -/
def weight_eps : ℚ := 1/5

/-- AnalysisEngine._calculate_beat_pct: null when the actual or the estimate
is absent or the estimate is exactly zero, else
(actual - estimate) / estimate * 100. -/
def calcBeatPct (actual estimate : Option ℚ) : Option ℚ :=
  match actual, estimate with
  | some a, some e => if e = 0 then none else some ((a - e) / e * 100)
  | _, _ => none

/-- AnalysisEngine._calculate_growth: null when the current or the previous
value is absent or the previous value is exactly zero, else
(current - previous) / previous * 100. -/
def calcGrowth (current previous : Option ℚ) : Option ℚ :=
  match current, previous with
  | some c, some p => if p = 0 then none else some ((c - p) / p * 100)
  | _, _ => none

/-- AnalysisEngine._calculate_sentiment_score: accumulate the weighted
available beat percentages and their weights in source order, divide when any
weight accumulated, else fall back to the year-over-year profit growth, else
zero. -/
def calcSentimentScore (r : AnalysisResult) : ℚ :=
  let acc1 : ℚ × ℚ := match r.profit_beat_pct with
    | some p => (p * weight_profit, weight_profit)
    | none => (0, 0)
  let acc2 : ℚ × ℚ := match r.revenue_beat_pct with
    | some v => (acc1.1 + v * weight_revenue, acc1.2 + weight_revenue)
    | none => acc1
  let acc3 : ℚ × ℚ := match r.eps_beat_pct with
    | some v => (acc2.1 + v * weight_eps, acc2.2 + weight_eps)
    | none => acc2
  if 0 < acc3.2 then acc3.1 / acc3.2
  else match r.yoy_profit_growth with
    | some g => g
    | none => 0

/-- AnalysisEngine._determine_sentiment: threshold cascade over the score. -/
def determineSentiment (score : ℚ) : Sentiment :=
  if score > threshold_strong_beat then Sentiment.STRONG_BEAT
  else if score > threshold_beat then Sentiment.BEAT
  else if score > threshold_inline_lower then Sentiment.INLINE
  else if score > threshold_miss then Sentiment.MISS
  else Sentiment.MAJOR_MISS

/-- engine.py base action text per sentiment. -/
def baseText (s : Sentiment) : List Char :=
  match s with
  | Sentiment.STRONG_BEAT =>
    engStrongIcon ++ strL " STRONG performance - Major beat across metrics!"
  | Sentiment.BEAT => engBeatIcon ++ strL " Positive results - Above expectations"
  | Sentiment.INLINE =>
    engInlineIcon ++ strL " Mixed results - In-line with expectations"
  | Sentiment.MISS => engMissIcon ++ strL " Weak results - Below expectations"
  | Sentiment.MAJOR_MISS =>
    engMajorMissIcon ++ strL " Poor performance - Significant miss"

/-- AnalysisEngine._generate_action_text: the sentiment base text, with a
growth clause appended for a truthy year-over-year profit growth above 20 or
below -10 (rendered with the +.1f specification). -/
def generateActionText (r : AnalysisResult) : List Char :=
  let base := baseText r.sentiment
  if truthy r.yoy_profit_growth then
    let g := r.yoy_profit_growth.getD 0
    if g > 20 then
      base ++ strL " | Strong YoY growth: " ++ fmtFixed 1 true g ++ strL "%"
    else if g < -10 then
      base ++ strL " | YoY decline: " ++ fmtFixed 1 true g ++ strL "%"
    else base
  else base

/-- AnalysisEngine._get_sentiment_emoji. -/
def sentimentIcon (s : Sentiment) : List Char :=
  match s with
  | Sentiment.STRONG_BEAT => engStrongIcon
  | Sentiment.BEAT => engBeatIcon
  | Sentiment.INLINE => engInlineIcon
  | Sentiment.MISS => engMissIcon
  | Sentiment.MAJOR_MISS => engMajorMissIcon

/-- AnalysisEngine.analyze as a pure function of the metrics and the optional
cached estimates: beat percentages when estimates exist, the four growth
rates, the weighted sentiment score and category, and the action text. -/
def analyze (metrics : ExtractedMetrics) (estimates : Option AnalystEstimates) :
    AnalysisResult :=
  let r0 : AnalysisResult :=
    { symbol := metrics.symbol
      quarter := metrics.quarter
      fiscal_year := metrics.fiscal_year }
  let r1 := match estimates with
    | some est =>
      { r0 with
        revenue_beat_pct := calcBeatPct metrics.revenue est.revenue_est
        profit_beat_pct := calcBeatPct metrics.profit_after_tax est.profit_est
        eps_beat_pct := calcBeatPct metrics.eps est.eps_est }
    | none => r0
  let r2 :=
    { r1 with
      yoy_revenue_growth := calcGrowth metrics.revenue metrics.revenue_prev_year
      yoy_profit_growth :=
        calcGrowth metrics.profit_after_tax metrics.profit_prev_year
      qoq_revenue_growth :=
        calcGrowth metrics.revenue metrics.revenue_prev_quarter
      qoq_profit_growth :=
        calcGrowth metrics.profit_after_tax metrics.profit_prev_quarter }
  let score := calcSentimentScore r2
  let r3 := { r2 with
    sentiment_score := score
    sentiment := determineSentiment score }
  { r3 with
    action_text := generateActionText r3
    action_emoji := sentimentIcon r3.sentiment }

end AnalysisEngine

/-! Alert formatting of database/models.py (AlertMessage.format_telegram and
the four template methods). The non-ASCII characters of the template literals
are reproduced from the file by code point. -/

/-- Currency sign preceding every money figure (models.py). -/
def rupeeSign : List Char :=
  [Char.ofNat 0x201a, Char.ofNat 0xc7, Char.ofNat 0x3c0]

/-- Icon opening the quarterly result template. -/
def chartIcon : List Char :=
  [Char.ofNat 0xf8ff, Char.ofNat 0xfc, Char.ofNat 0xec, Char.ofNat 0xe4]

/-- Icon opening the vs-Estimates block. -/
def chartUpIcon : List Char :=
  [Char.ofNat 0xf8ff, Char.ofNat 0xfc, Char.ofNat 0xec, Char.ofNat 0xe0]

/-- Icon of a positive beat line. -/
def greenIcon : List Char :=
  [Char.ofNat 0xf8ff, Char.ofNat 0xfc, Char.ofNat 0xfc, Char.ofNat 0xa2]

/-- Icon of a negative beat line. -/
def redIcon : List Char :=
  [Char.ofNat 0xf8ff, Char.ofNat 0xfc, Char.ofNat 0xee, Char.ofNat 0xa5]

/-- Bullet of the per-metric lines. -/
def bulletIcon : List Char :=
  [Char.ofNat 0x201a, Char.ofNat 0xc4, Char.ofNat 0xa2]

/-- Icon of the action line. -/
def boltIcon : List Char :=
  [Char.ofNat 0x201a, Char.ofNat 0xf6, Char.ofNat 0xb0]

/-- Icon of the detection latency line. -/
def timerIcon : List Char :=
  [Char.ofNat 0x201a, Char.ofNat 0xe8, Char.ofNat 0xb1, Char.ofNat 0xd4,
   Char.ofNat 0x220f, Char.ofNat 0xe8]

/-- Icon opening the news template. -/
def newsIcon : List Char :=
  [Char.ofNat 0xf8ff, Char.ofNat 0xfc, Char.ofNat 0xec, Char.ofNat 0x221e]

/-- Icon of the source line of the news template. -/
def bulbIcon : List Char :=
  [Char.ofNat 0xf8ff, Char.ofNat 0xfc, Char.ofNat 0xed, Char.ofNat 0xb0]

/-- Icon opening the corporate action template. -/
def bellIcon : List Char :=
  [Char.ofNat 0xf8ff, Char.ofNat 0xfc, Char.ofNat 0xee, Char.ofNat 0xee]

/-- Icon opening the earnings call template. -/
def micIcon : List Char :=
  [Char.ofNat 0xf8ff, Char.ofNat 0xfc, Char.ofNat 0xe9, Char.ofNat 0xa7]

/-- database/models.py AlertMessage. -/
structure AlertMessage where
  symbol : List Char
  metrics : ExtractedMetrics
  analysis : AnalysisResult
  detection_time_sec : ℚ
  pdf_url : List Char
  announcement_type : List Char := strL "QUARTERLY_RESULT"
deriving DecidableEq, Repr

namespace AlertMessage

/-- A money figure in the ,.0f rupee-crore format. -/
def moneyFig (v : ℚ) : List Char := rupeeSign ++ fmtGrouped0 v ++ strL "Cr"

/-- The detection latency line shared by every template. -/
def detectedLine (dts : ℚ) : List Char :=
  timerIcon ++ strL " Detected in " ++ fmtFixed 1 false dts ++ strL "s"

/-- One beat/miss line of the vs-Estimates block. -/
def beatLine (label : List Char) (pct : ℚ) : List Char :=
  strL "\n" ++ bulletIcon ++ strL " " ++ label ++ strL ": "
    ++ fmtFixed 1 true pct ++ strL "% "
    ++ (if 0 < pct then greenIcon else redIcon)

/-- AlertMessage._format_result_alert. -/
def formatResultAlert (msg : AlertMessage) : List Char :=
  let revenue := if truthy msg.metrics.revenue
    then moneyFig (msg.metrics.revenue.getD 0) else strL "N/A"
  let profit := if truthy msg.metrics.profit_after_tax
    then moneyFig (msg.metrics.profit_after_tax.getD 0) else strL "N/A"
  let eps := if truthy msg.metrics.eps
    then rupeeSign ++ fmtFixed 2 false (msg.metrics.eps.getD 0) else strL "N/A"
  let yoy_rev := if truthy msg.analysis.yoy_revenue_growth
    then strL "(" ++ fmtFixed 1 true (msg.analysis.yoy_revenue_growth.getD 0)
      ++ strL "%)"
    else []
  let yoy_profit := if truthy msg.analysis.yoy_profit_growth
    then strL "(" ++ fmtFixed 1 true (msg.analysis.yoy_profit_growth.getD 0)
      ++ strL "%)"
    else []
  let estBlock :=
    if msg.analysis.revenue_beat_pct.isSome
        || msg.analysis.profit_beat_pct.isSome
        || msg.analysis.eps_beat_pct.isSome then
      strL "\n" ++ chartUpIcon ++ strL " **vs Estimates:**"
        ++ (match msg.analysis.revenue_beat_pct with
            | some v => beatLine (strL "Revenue") v
            | none => [])
        ++ (match msg.analysis.profit_beat_pct with
            | some v => beatLine (strL "Profit") v
            | none => [])
        ++ (match msg.analysis.eps_beat_pct with
            | some v => beatLine (strL "EPS") v
            | none => [])
    else []
  chartIcon ++ strL " **" ++ msg.symbol ++ strL " Q"
    ++ natDigits msg.metrics.quarter ++ strL " FY"
    ++ natDigits msg.metrics.fiscal_year ++ strL " Results**\n\n"
    ++ strL "**Revenue:** " ++ revenue ++ strL " " ++ yoy_rev
    ++ strL "\n**Profit:** " ++ profit ++ strL " " ++ yoy_profit
    ++ strL "\n**EPS:** " ++ eps ++ strL "\n"
    ++ estBlock
    ++ strL "\n\n" ++ boltIcon ++ strL " **Action:** " ++ msg.analysis.action_text
    ++ strL "\n" ++ detectedLine msg.detection_time_sec

/-- AlertMessage._format_news_alert (a null or zero metric renders nothing;
the figures block appears only when at least one figure is truthy). -/
def formatNewsAlert (msg : AlertMessage) : List Char :=
  let revenue := if truthy msg.metrics.revenue
    then some (moneyFig (msg.metrics.revenue.getD 0)) else none
  let profit := if truthy msg.metrics.profit_after_tax
    then some (moneyFig (msg.metrics.profit_after_tax.getD 0)) else none
  let figures :=
    if revenue.isSome || profit.isSome then
      strL "**Key Figures:**\n"
        ++ (match revenue with
            | some r => bulletIcon ++ strL " Revenue: " ++ r ++ strL "\n"
            | none => [])
        ++ (match profit with
            | some p => bulletIcon ++ strL " Profit: " ++ p ++ strL "\n"
            | none => [])
        ++ strL "\n"
    else []
  newsIcon ++ strL " **" ++ msg.symbol ++ strL " - Market News**\n\n"
    ++ figures
    ++ bulbIcon ++ strL " **Source:** News Article\n"
    ++ detectedLine msg.detection_time_sec

/-- AlertMessage._format_corporate_action_alert. -/
def formatCorporateActionAlert (msg : AlertMessage) : List Char :=
  let figures :=
    if truthy msg.metrics.revenue || truthy msg.metrics.profit_after_tax then
      strL "**Mentioned Figures:**\n"
        ++ (if truthy msg.metrics.revenue then
              bulletIcon ++ strL " Revenue: "
                ++ moneyFig (msg.metrics.revenue.getD 0) ++ strL "\n"
            else [])
        ++ (if truthy msg.metrics.profit_after_tax then
              bulletIcon ++ strL " Profit: "
                ++ moneyFig (msg.metrics.profit_after_tax.getD 0) ++ strL "\n"
            else [])
        ++ strL "\n"
    else []
  bellIcon ++ strL " **" ++ msg.symbol ++ strL " - Corporate Action**\n\n"
    ++ strL "**Type:** Disclosure/Corporate Filing\n\n"
    ++ figures
    ++ detectedLine msg.detection_time_sec

/-- AlertMessage._format_earnings_call_alert. -/
def formatEarningsCallAlert (msg : AlertMessage) : List Char :=
  let revenue := if truthy msg.metrics.revenue
    then moneyFig (msg.metrics.revenue.getD 0) else strL "N/A"
  let profit := if truthy msg.metrics.profit_after_tax
    then moneyFig (msg.metrics.profit_after_tax.getD 0) else strL "N/A"
  micIcon ++ strL " **" ++ msg.symbol ++ strL " Q"
    ++ natDigits msg.metrics.quarter ++ strL " FY"
    ++ natDigits msg.metrics.fiscal_year ++ strL " Earnings Call**\n\n"
    ++ strL "**Type:** Transcript/Conference Call\n\n"
    ++ strL "**Revenue:** " ++ revenue
    ++ strL "\n**Profit:** " ++ profit ++ strL "\n\n"
    ++ detectedLine msg.detection_time_sec

/-- AlertMessage.format_telegram: template selection by announcement type,
defaulting to the quarterly result template. -/
def format_telegram (msg : AlertMessage) : List Char :=
  if msg.announcement_type = strL "NEWS_ARTICLE" then formatNewsAlert msg
  else if msg.announcement_type = strL "CORPORATE_ACTION" then
    formatCorporateActionAlert msg
  else if msg.announcement_type = strL "EARNINGS_CALL" then
    formatEarningsCallAlert msg
  else formatResultAlert msg

end AlertMessage

/-! Spec-side definition used to settle the sentiment-score refinement claim:
the weighted average as the specification words it, with the sum of the
present weights as denominator and the year-over-year profit growth (else
zero) as fallback. -/

/-- The sentiment score as the specification describes it. -/
def specSentimentScore (pb rb eb yoy : Option ℚ) : ℚ :=
  let w := (if pb.isSome then AnalysisEngine.weight_profit else 0)
    + (if rb.isSome then AnalysisEngine.weight_revenue else 0)
    + (if eb.isSome then AnalysisEngine.weight_eps else 0)
  if w ≠ 0 then
    (pb.getD 0 * AnalysisEngine.weight_profit
      + rb.getD 0 * AnalysisEngine.weight_revenue
      + eb.getD 0 * AnalysisEngine.weight_eps) / w
  else match yoy with
    | some g => g
    | none => 0

/-! Concrete inputs used by the witnesses below. -/

/-- A feed announcement whose attachment URL carries a query and fragment. -/
def wRss1 : Announcement :=
  { source := strL "economic_times_rss"
    symbol := strL "TCS"
    date := strL "13 Nov 2025"
    description := strL "TCS Q2 results beat estimates"
    attachment_url := strL "http://example.com/markets/tcs-q2?utm=rss#top"
    attachment_text := [] }

/-- The same announcement with the https scheme, a trailing slash, and no
query or fragment on the URL. -/
def wRss2 : Announcement :=
  { wRss1 with attachment_url := strL "https://example.com/markets/tcs-q2/" }

/-- An exchange announcement (no feed marker in the source tag). -/
def wExch : Announcement :=
  { source := strL "bse_library"
    symbol := strL "500325"
    date := strL "13/11/2025"
    description := strL "Unaudited Financial Results for quarter ended 30.09.2025"
    attachment_url := strL "https://www.bseindia.com/xml-data/corpfiling/AttachLive/x.pdf"
    attachment_text := [] }

/-- An alert message whose metrics numeric fields are all null, typed as a
news article. -/
def msgC9 : AlertMessage :=
  { symbol := strL "TCS"
    metrics := { symbol := strL "TCS", quarter := 2, fiscal_year := 2025 }
    analysis := { symbol := strL "TCS", quarter := 2, fiscal_year := 2025 }
    detection_time_sec := 0
    pdf_url := strL "u"
    announcement_type := strL "NEWS_ARTICLE" }

/-! General lemmas shared by the claim theorems. -/

/-- The Bool substring test agrees with list infixhood. -/
theorem substr_iff (n h : List Char) : substr n h = true ↔ n <:+: h := by
  induction h with
  | nil => simp [substr, List.isEmpty_iff, List.infix_nil]
  | cons a t ih =>
    simp [substr, List.infix_cons_iff, List.isPrefixOf_iff_prefix, ih]

/-- A non-occurring needle gives a false substring test. -/
theorem substr_eq_false_of_not {n t : List Char} (h : ¬ n <:+: t) :
    substr n t = false := by
  cases hc : substr n t
  · rfl
  · exact absurd ((substr_iff _ _).mp hc) h

/-- A text containing no keyword of the list has zero hits. -/
theorem countHits_eq_zero {kws : List (List Char)} {t : List Char}
    (h : ∀ kw ∈ kws, ¬ kw <:+: t) : countHits kws t = 0 := by
  unfold countHits
  rw [List.length_eq_zero, List.filter_eq_nil_iff]
  exact fun kw hkw hc => h kw hkw ((substr_iff _ _).mp hc)

/-- The winner score of the classifier is at least the news score. -/
theorem bestOf_snd_ge_n (e c n q : ℚ) :
    n ≤ (AnnouncementClassifier.bestOf e c n q).2 := by
  unfold AnnouncementClassifier.bestOf
  dsimp only
  split <;> split <;> try split
  all_goals simp_all <;> linarith

/-- With a nonnegative maximal score, the final confidence lies in [0, 1]. -/
theorem finalize_bounds (p : AnnType × ℚ) (h : 0 ≤ p.2) :
    0 ≤ (AnnouncementClassifier.finalize p).2
      ∧ (AnnouncementClassifier.finalize p).2 ≤ 1 := by
  unfold AnnouncementClassifier.finalize
  split
  · norm_num
  · constructor
    · simp only
      positivity
    · simp only
      exact min_le_right _ _

/-- The news score is a sum of nonnegative contributions. -/
theorem scoreN_nonneg (text source : List Char) :
    0 ≤ AnnouncementClassifier.scoreN text source := by
  unfold AnnouncementClassifier.scoreN
  have h1 : (0:ℚ) ≤ if AnnouncementClassifier.is_rss_news source then 3 else 0 := by
    split <;> norm_num
  have h2 : (0:ℚ) ≤ 2 * (countHits AnnouncementClassifier.NEWS_KEYWORDS text : ℚ) := by
    positivity
  have h3 : (0:ℚ) ≤
      if 3 ≤ countHits AnnouncementClassifier.NEWS_KEYWORDS text then 2 else 0 := by
    split <;> norm_num
  have h4 : (0:ℚ) ≤
      if AnnouncementClassifier.PUBLICATION_NAMES.any (fun w => substr w text)
      then 2 else 0 := by
    split <;> norm_num
  have h5 : (0:ℚ) ≤
      3/2 * (countHits AnnouncementClassifier.NEWS_PATTERNS text : ℚ) := by
    positivity
  have h6 : (0:ℚ) ≤
      if substr (strL "?") text || substr (strL "why") text
        || substr (strL "here" ++ [apos] ++ strL "s") text then 1 else 0 := by
    split <;> norm_num
  have h7 : (0:ℚ) ≤
      if AnnouncementClassifier.rule3 text source then 2 else 0 := by
    split <;> norm_num
  linarith

/-- An MD5 digest always holds sixteen bytes. -/
theorem md5_length (msg : List Nat) : (md5 msg).length = 16 := by
  simp [md5, leBytes]

/-- Hex rendering doubles the byte count. -/
theorem hexOfBytes_length (bs : List Nat) :
    (hexOfBytes bs).length = 2 * bs.length := by
  induction bs with
  | nil => rfl
  | cons b t ih =>
    simp [hexOfBytes, ih]
    ring

/-- An MD5 hexdigest always holds 32 characters. -/
theorem md5Hex_length (s : List Char) : (md5Hex s).length = 32 := by
  simp [md5Hex, hexOfBytes_length, md5_length]

/-- C1: the confidence score of every parsed ExtractedMetrics is exactly the
sum of 0.4 for a non-null nonzero revenue, 0.4 for a non-null nonzero profit
after tax and 0.2 for a non-null nonzero eps — a field holding the value zero
contributes nothing (Python truthiness), which is the amendment to the claim. -/
theorem claim_C1_theorem (text symbol : List Char) (nowYear nowMonth : Nat) :
    (MetricsParser.parse text symbol nowYear nowMonth).confidence_score
      = (if truthy (MetricsParser.parse text symbol nowYear nowMonth).revenue
          then 2/5 else 0)
        + (if truthy (MetricsParser.parse text symbol nowYear
            nowMonth).profit_after_tax then 2/5 else 0)
        + (if truthy (MetricsParser.parse text symbol nowYear nowMonth).eps
          then 1/5 else 0) :=
  rfl

/-- C1 counterexample: a text whose parsed revenue is the non-null value 0
while profit and eps are non-null and nonzero; the claim as stated demands
confidence 0.4 + 0.4 + 0.2 = 1.0, but the code yields 0.6 because the zero
revenue is falsy. -/
theorem claim_C1_counterexample :
    (MetricsParser.parse (strL "revenue 0 cr profit after tax 5 cr eps 2")
        (strL "X") 2025 10).revenue = some 0
    ∧ (MetricsParser.parse (strL "revenue 0 cr profit after tax 5 cr eps 2")
        (strL "X") 2025 10).profit_after_tax = some 5
    ∧ (MetricsParser.parse (strL "revenue 0 cr profit after tax 5 cr eps 2")
        (strL "X") 2025 10).eps = some 2
    ∧ (MetricsParser.parse (strL "revenue 0 cr profit after tax 5 cr eps 2")
        (strL "X") 2025 10).confidence_score = 3/5
    ∧ (3/5 : ℚ) ≠ 2/5 + 2/5 + 1/5 := by
  have hr : MetricsParser.extractUnitMetric MetricsParser.revenueKws
      (lowerL (strL "revenue 0 cr profit after tax 5 cr eps 2"))
      = some { mantissa := 0, scale := 0 } := by decide
  have hp : MetricsParser.extractUnitMetric MetricsParser.profitKws
      (lowerL (strL "revenue 0 cr profit after tax 5 cr eps 2"))
      = some { mantissa := 5, scale := 0 } := by decide
  have he : MetricsParser.extractBareMetric MetricsParser.epsKws
      (lowerL (strL "revenue 0 cr profit after tax 5 cr eps 2"))
      = some { mantissa := 2, scale := 0 } := by decide
  refine ⟨?_, ?_, ?_, ?_, by norm_num⟩ <;>
    simp [MetricsParser.parse, hr, hp, he, MetricsParser.calcConfidence,
      truthy, MetricsParser.decToQ] <;>
    norm_num

/-- C2: the sentiment category is the step function of the score described by
the claim (each category holds exactly on its half-open band, so exactly one
category arises for every score), and a score of -12 yields MAJOR_MISS. -/
theorem claim_C2_theorem :
    (∀ s : ℚ,
      (AnalysisEngine.determineSentiment s = Sentiment.STRONG_BEAT ↔ 10 < s)
      ∧ (AnalysisEngine.determineSentiment s = Sentiment.BEAT ↔ 5 < s ∧ s ≤ 10)
      ∧ (AnalysisEngine.determineSentiment s = Sentiment.INLINE ↔ -5 < s ∧ s ≤ 5)
      ∧ (AnalysisEngine.determineSentiment s = Sentiment.MISS ↔ -10 < s ∧ s ≤ -5)
      ∧ (AnalysisEngine.determineSentiment s = Sentiment.MAJOR_MISS ↔ s ≤ -10))
    ∧ AnalysisEngine.determineSentiment (-12) = Sentiment.MAJOR_MISS := by
  constructor
  · intro s
    unfold AnalysisEngine.determineSentiment AnalysisEngine.threshold_strong_beat
      AnalysisEngine.threshold_beat AnalysisEngine.threshold_inline_lower
      AnalysisEngine.threshold_miss
    split_ifs with h1 h2 h3 h4 <;> refine ⟨?_, ?_, ?_, ?_, ?_⟩ <;> simp_all
    all_goals first
      | linarith
      | (constructor <;> linarith)
      | (intro h; linarith)
  · norm_num [AnalysisEngine.determineSentiment,
      AnalysisEngine.threshold_strong_beat, AnalysisEngine.threshold_beat,
      AnalysisEngine.threshold_inline_lower, AnalysisEngine.threshold_miss]

/-- C3: the sentiment score equals the weighted average the specification
describes (weights renormalized over the present beat percentages, falling
back to year-over-year profit growth and then to zero), and with
revenue_beat = 10, profit_beat = 15, eps_beat = 5 it is exactly 11.5,
category STRONG_BEAT. -/
theorem claim_C3_theorem :
    (∀ r : AnalysisResult,
      AnalysisEngine.calcSentimentScore r
        = specSentimentScore r.profit_beat_pct r.revenue_beat_pct
            r.eps_beat_pct r.yoy_profit_growth)
    ∧ AnalysisEngine.calcSentimentScore
        { symbol := [], quarter := 2, fiscal_year := 2025,
          revenue_beat_pct := some 10, profit_beat_pct := some 15,
          eps_beat_pct := some 5 } = 23/2
    ∧ AnalysisEngine.determineSentiment (23/2) = Sentiment.STRONG_BEAT := by
  refine ⟨?_, ?_, ?_⟩
  · intro r
    unfold AnalysisEngine.calcSentimentScore specSentimentScore
      AnalysisEngine.weight_profit AnalysisEngine.weight_revenue
      AnalysisEngine.weight_eps
    rcases r.profit_beat_pct with _ | p <;>
      rcases r.revenue_beat_pct with _ | v <;>
      rcases r.eps_beat_pct with _ | e <;>
      rcases r.yoy_profit_growth with _ | g <;>
      norm_num
  · norm_num [AnalysisEngine.calcSentimentScore, AnalysisEngine.weight_profit,
      AnalysisEngine.weight_revenue, AnalysisEngine.weight_eps]
  · norm_num [AnalysisEngine.determineSentiment,
      AnalysisEngine.threshold_strong_beat]

/-- C4: amended — classify returns (OTHER, 0.0) for a text free of every
category keyword, provided additionally that the source tag carries no feed
marker, the text mentions no publication name, no regulation 29/30, no
question mark and no "here s" (with an apostrophe); without those extra
conditions the claim fails, see the counterexample. -/
theorem claim_C4_theorem (d a s : List Char)
    (hkw : ∀ kw ∈ AnnouncementClassifier.ALL_CATEGORY_KEYWORDS,
      ¬ kw <:+: AnnouncementClassifier.combinedText d a)
    (hsrc : ∀ m ∈ AnnouncementClassifier.RSS_SOURCE_MARKERS, ¬ m <:+: lowerL s)
    (hpub : ∀ w ∈ AnnouncementClassifier.PUBLICATION_NAMES,
      ¬ w <:+: AnnouncementClassifier.combinedText d a)
    (hreg29 : ¬ strL "regulation 29" <:+: AnnouncementClassifier.combinedText d a)
    (hreg30 : ¬ strL "regulation 30" <:+: AnnouncementClassifier.combinedText d a)
    (hquest : ¬ strL "?" <:+: AnnouncementClassifier.combinedText d a)
    (hheres : ¬ (strL "here" ++ [apos] ++ strL "s")
      <:+: AnnouncementClassifier.combinedText d a) :
    AnnouncementClassifier.classify d a s = (AnnType.OTHER, 0) := by
  open AnnouncementClassifier in
  unfold AnnouncementClassifier.classify
  set T := AnnouncementClassifier.combinedText d a with hT
  have hnews : ∀ kw ∈ NEWS_KEYWORDS, ¬ kw <:+: T := by
    intro kw hm
    refine hkw kw ?_
    simp only [ALL_CATEGORY_KEYWORDS, List.mem_append]
    tauto
  have hE0 : countHits EARNINGS_CALL_KEYWORDS T = 0 := by
    refine countHits_eq_zero fun kw hm => hkw kw ?_
    simp only [ALL_CATEGORY_KEYWORDS, List.mem_append]
    tauto
  have hC0 : countHits CORPORATE_ACTION_KEYWORDS T = 0 := by
    refine countHits_eq_zero fun kw hm => hkw kw ?_
    simp only [ALL_CATEGORY_KEYWORDS, List.mem_append]
    tauto
  have hN0 : countHits NEWS_KEYWORDS T = 0 := countHits_eq_zero hnews
  have hQ0 : countHits QUARTERLY_RESULT_KEYWORDS T = 0 := by
    refine countHits_eq_zero fun kw hm => hkw kw ?_
    simp only [ALL_CATEGORY_KEYWORDS, List.mem_append]
    tauto
  have hcover : ∀ p ∈ NEWS_PATTERNS, ∃ kw ∈ NEWS_KEYWORDS, kw <:+: p := by
    decide
  have hP0 : countHits NEWS_PATTERNS T = 0 := by
    refine countHits_eq_zero fun p hp hc => ?_
    obtain ⟨kw, hkm, hkp⟩ := hcover p hp
    exact hnews kw hkm (hkp.trans hc)
  have hrss : is_rss_news s = false := by
    unfold is_rss_news
    rw [List.any_eq_false]
    exact fun m hm hc => hsrc m hm ((substr_iff _ _).mp hc)
  have hpubF : (PUBLICATION_NAMES.any (fun w => substr w T)) = false := by
    rw [List.any_eq_false]
    exact fun w hw hc => hpub w hw ((substr_iff _ _).mp hc)
  have hregF : hasRegulation T = false := by
    unfold hasRegulation
    rw [substr_eq_false_of_not hreg29, substr_eq_false_of_not hreg30]
    rfl
  have hwhy : substr (strL "why") T = false :=
    substr_eq_false_of_not (hnews (strL "why") (by decide))
  have hmovF : (MOVEMENT_TOKENS.any (fun m => substr m T)) = false := by
    rw [List.any_eq_false]
    intro m hm hc
    have hmem : m ∈ NEWS_KEYWORDS := by fin_cases hm <;> decide
    exact hnews m hmem ((substr_iff _ _).mp hc)
  have hrule3 : rule3 T s = false := by
    unfold rule3
    rw [hmovF, hrss]
    simp
  have hE : scoreE T (decide (5000 < a.length)) = 0 := by
    simp [scoreE, hE0]
  have hC : scoreC T = 0 := by
    simp [scoreC, hC0, hregF]
  have hN : scoreN T s = 0 := by
    rw [scoreN, hN0, hP0, hrss, hpubF, hrule3, hwhy,
      substr_eq_false_of_not hquest, substr_eq_false_of_not hheres]
    norm_num
  have hQ : scoreQ T s = 0 := by
    rw [scoreQ, hQ0, hregF, hrule3]
    norm_num
  unfold classifyWith
  rw [hE, hC, hN, hQ]
  norm_num [finalize, bestOf]

/-- C4 witness: a keyword-free description from a non-feed source classifies
as (OTHER, 0.0). -/
theorem claim_C4_witness :
    AnnouncementClassifier.classify (strL "hello world") [] (strL "nse")
      = (AnnType.OTHER, 0) :=
  claim_C4_theorem _ _ _ (by decide) (by decide) (by decide)
    (by decide) (by decide) (by decide) (by decide)

/-- C4 counterexample: empty description and attachment contain no category
keyword at all, yet a source tag containing rss makes classify return
(NEWS_ARTICLE, 0.375) through the feed-origin bonus, not (OTHER, 0.0) as the
claim states. -/
theorem claim_C4_counterexample :
    (∀ kw ∈ AnnouncementClassifier.ALL_CATEGORY_KEYWORDS,
      ¬ kw <:+: AnnouncementClassifier.combinedText [] [])
    ∧ AnnouncementClassifier.classify [] [] (strL "rss")
        = (AnnType.NEWS_ARTICLE, 3/8) := by
  open AnnouncementClassifier in
  refine ⟨by decide, ?_⟩
  have ht : AnnouncementClassifier.combinedText [] [] = [' '] := by decide
  have hlen : decide (5000 < ([] : List Char).length) = false := by decide
  unfold AnnouncementClassifier.classify
  rw [ht, hlen]
  have hE : scoreE [' '] false = 0 := by
    unfold scoreE
    rw [show countHits EARNINGS_CALL_KEYWORDS [' '] = 0 from by decide]
    norm_num
  have hC : scoreC [' '] = 0 := by
    unfold scoreC
    rw [show countHits CORPORATE_ACTION_KEYWORDS [' '] = 0 from by decide,
        show hasRegulation [' '] = false from by decide]
    norm_num
  have hN : scoreN [' '] (strL "rss") = 3 := by
    unfold scoreN
    rw [show countHits NEWS_KEYWORDS [' '] = 0 from by decide,
        show countHits NEWS_PATTERNS [' '] = 0 from by decide,
        show is_rss_news (strL "rss") = true from by decide,
        show rule3 [' '] (strL "rss") = false from by decide,
        show (PUBLICATION_NAMES.any (fun w => substr w [' '])) = false from by
          decide,
        show (substr (strL "?") [' '] || substr (strL "why") [' ']
          || substr (strL "here" ++ [apos] ++ strL "s") [' ']) = false from by
          decide]
    norm_num
  have hQ : scoreQ [' '] (strL "rss") = 0 := by
    unfold scoreQ
    rw [show countHits QUARTERLY_RESULT_KEYWORDS [' '] = 0 from by decide,
        show hasRegulation [' '] = false from by decide,
        show rule3 [' '] (strL "rss") = false from by decide]
    norm_num
  unfold classifyWith
  rw [hE, hC, hN, hQ]
  norm_num [finalize, bestOf]

/-- C5: any text containing an administrative exclude phrase is rejected by
is_quarterly_result, whatever include keywords it also contains (the theorem
quantifies over all texts with an exclude phrase, so also over those with
include keywords). -/
theorem claim_C5_theorem (t : List Char)
    (h : ∃ kw ∈ SourceMonitor.exclude_keywords, kw <:+: lowerL t) :
    SourceMonitor.is_quarterly_result t = false := by
  unfold SourceMonitor.is_quarterly_result
  obtain ⟨kw, hmem, hinf⟩ := h
  have hx : SourceMonitor.exclude_keywords.any
      (fun kw => substr kw (lowerL t)) = true := by
    rw [List.any_eq_true]
    exact ⟨kw, hmem, (substr_iff _ _).mpr hinf⟩
  simp [hx]

/-- C5 witness: the specification scenario — a title carrying the exclude
phrase "newspaper publication" and also the include keywords q2 and results
is rejected. -/
theorem claim_C5_witness :
    (∃ kw ∈ SourceMonitor.exclude_keywords,
        kw <:+: lowerL (strL "Newspaper publication: Q2 Results"))
    ∧ (∃ kw ∈ SourceMonitor.result_keywords,
        kw <:+: lowerL (strL "Newspaper publication: Q2 Results"))
    ∧ SourceMonitor.is_quarterly_result
        (strL "Newspaper publication: Q2 Results") = false :=
  ⟨by decide, by decide, claim_C5_theorem _ (by decide)⟩

/-- C6: the deduplication key builder is deterministic; feed announcements
whose attachment URLs share a netloc and a path up to trailing slashes (in
particular URLs differing only by scheme, query, fragment or a trailing
slash) get the same key, of the form processed:rss: plus 16 hex characters of
the MD5 of the normalized URL; every other announcement gets
processed:symbol: plus 12 hex characters of the MD5 of the description. -/
theorem claim_C6_theorem :
    (∀ ann : Announcement, buildDedupKey ann = buildDedupKey ann)
    ∧ (∀ a1 a2 : Announcement, usesRssKey a1 = true → usesRssKey a2 = true →
        (urlparse a1.attachment_url).netloc
          = (urlparse a2.attachment_url).netloc →
        rstripSlash (urlparse a1.attachment_url).path
          = rstripSlash (urlparse a2.attachment_url).path →
        buildDedupKey a1 = buildDedupKey a2)
    ∧ (∀ ann : Announcement, usesRssKey ann = true →
        buildDedupKey ann = strL "processed:rss:"
            ++ (md5Hex (normalizeUrl ann.attachment_url)).take 16
          ∧ ((md5Hex (normalizeUrl ann.attachment_url)).take 16).length = 16)
    ∧ (∀ ann : Announcement, usesRssKey ann = false →
        buildDedupKey ann = strL "processed:" ++ ann.symbol ++ strL ":"
            ++ (md5Hex ann.description).take 12
          ∧ ((md5Hex ann.description).take 12).length = 12) := by
  refine ⟨fun ann => rfl, ?_, ?_, ?_⟩
  · intro a1 a2 h1 h2 hnet hpath
    have hnorm : normalizeUrl a1.attachment_url
        = normalizeUrl a2.attachment_url := by
      unfold normalizeUrl
      rw [hnet, hpath]
    simp [buildDedupKey, h1, h2, hnorm]
  · intro ann h
    exact ⟨by simp [buildDedupKey, h], by simp [List.length_take, md5Hex_length]⟩
  · intro ann h
    exact ⟨by simp [buildDedupKey, h], by simp [List.length_take, md5Hex_length]⟩

/-- C6 witness: the two feed announcements whose URLs differ by scheme,
query, fragment and a trailing slash share one key, and the exchange
announcement gets the symbol-plus-description-hash key. -/
theorem claim_C6_witness :
    buildDedupKey wRss1 = buildDedupKey wRss2
    ∧ buildDedupKey wExch = strL "processed:" ++ wExch.symbol ++ strL ":"
        ++ (md5Hex wExch.description).take 12 :=
  ⟨claim_C6_theorem.2.1 wRss1 wRss2 (by decide) (by decide) (by decide)
      (by decide),
   (claim_C6_theorem.2.2.2 wExch (by decide)).1⟩

/-- C7: both percentage divisions of the Analysis Engine are guarded: each
returns null whenever an operand is absent or the denominator operand is
exactly zero, and otherwise the difference over the denominator times 100,
so no division by zero is ever evaluated. -/
theorem claim_C7_theorem :
    (∀ e : Option ℚ, AnalysisEngine.calcBeatPct none e = none)
    ∧ (∀ a : Option ℚ, AnalysisEngine.calcBeatPct a none = none)
    ∧ (∀ x : ℚ, AnalysisEngine.calcBeatPct (some x) (some 0) = none)
    ∧ (∀ x y : ℚ, y ≠ 0 →
        AnalysisEngine.calcBeatPct (some x) (some y)
          = some ((x - y) / y * 100))
    ∧ (∀ p : Option ℚ, AnalysisEngine.calcGrowth none p = none)
    ∧ (∀ c : Option ℚ, AnalysisEngine.calcGrowth c none = none)
    ∧ (∀ x : ℚ, AnalysisEngine.calcGrowth (some x) (some 0) = none)
    ∧ (∀ x y : ℚ, y ≠ 0 →
        AnalysisEngine.calcGrowth (some x) (some y)
          = some ((x - y) / y * 100)) := by
  refine ⟨fun e => rfl, fun a => ?_,
    fun x => by simp [AnalysisEngine.calcBeatPct],
    fun x y hy => by simp [AnalysisEngine.calcBeatPct, hy],
    fun p => rfl, fun c => ?_,
    fun x => by simp [AnalysisEngine.calcGrowth],
    fun x y hy => by simp [AnalysisEngine.calcGrowth, hy]⟩
  · cases a <;> rfl
  · cases c <;> rfl

/-- C7 witness: an actual of 110 against an estimate of 100 yields a
beat percentage of (110 - 100) / 100 * 100. -/
theorem claim_C7_witness :
    (100 : ℚ) ≠ 0
    ∧ AnalysisEngine.calcBeatPct (some 110) (some 100)
        = some ((110 - 100) / 100 * 100) :=
  ⟨by simp, claim_C7_theorem.2.2.2.1 110 100 (by simp)⟩

/-- C8: for every description, attachment text and source tag, the
confidence returned by classify lies in the closed interval [0, 1]. -/
theorem claim_C8_theorem (d a s : List Char) :
    0 ≤ (AnnouncementClassifier.classify d a s).2
      ∧ (AnnouncementClassifier.classify d a s).2 ≤ 1 := by
  unfold AnnouncementClassifier.classify AnnouncementClassifier.classifyWith
  exact finalize_bounds _ (le_trans (scoreN_nonneg _ _) (bestOf_snd_ge_n _ _ _ _))

/-- C9: amended — with every metrics numeric field null (and the analysis
percentages null, as the pipeline derives them from those metrics), the
quarterly-result and earnings-call templates render each nullable numeric
field as the N/A placeholder, while the news-article and corporate-action
templates omit the figures section entirely; all four outputs are non-empty
and formatting is total by construction. -/
theorem claim_C9_theorem (msg : AlertMessage)
    (h1 : msg.metrics.revenue = none)
    (h2 : msg.metrics.profit_after_tax = none)
    (h3 : msg.metrics.eps = none)
    (ha1 : msg.analysis.revenue_beat_pct = none)
    (ha2 : msg.analysis.profit_beat_pct = none)
    (ha3 : msg.analysis.eps_beat_pct = none)
    (ha4 : msg.analysis.yoy_revenue_growth = none)
    (ha5 : msg.analysis.yoy_profit_growth = none) :
    AlertMessage.format_telegram
        { msg with announcement_type := strL "QUARTERLY_RESULT" }
        = chartIcon ++ strL " **" ++ msg.symbol ++ strL " Q"
          ++ natDigits msg.metrics.quarter ++ strL " FY"
          ++ natDigits msg.metrics.fiscal_year
          ++ strL " Results**\n\n**Revenue:** N/A \n**Profit:** N/A \n**EPS:** N/A\n\n\n"
          ++ boltIcon ++ strL " **Action:** " ++ msg.analysis.action_text
          ++ strL "\n" ++ AlertMessage.detectedLine msg.detection_time_sec
    ∧ AlertMessage.format_telegram
        { msg with announcement_type := strL "EARNINGS_CALL" }
        = micIcon ++ strL " **" ++ msg.symbol ++ strL " Q"
          ++ natDigits msg.metrics.quarter ++ strL " FY"
          ++ natDigits msg.metrics.fiscal_year
          ++ strL " Earnings Call**\n\n**Type:** Transcript/Conference Call\n\n"
          ++ strL "**Revenue:** N/A\n**Profit:** N/A\n\n"
          ++ AlertMessage.detectedLine msg.detection_time_sec
    ∧ AlertMessage.format_telegram
        { msg with announcement_type := strL "NEWS_ARTICLE" }
        = newsIcon ++ strL " **" ++ msg.symbol ++ strL " - Market News**\n\n"
          ++ bulbIcon ++ strL " **Source:** News Article\n"
          ++ AlertMessage.detectedLine msg.detection_time_sec
    ∧ AlertMessage.format_telegram
        { msg with announcement_type := strL "CORPORATE_ACTION" }
        = bellIcon ++ strL " **" ++ msg.symbol
          ++ strL " - Corporate Action**\n\n**Type:** Disclosure/Corporate Filing\n\n"
          ++ AlertMessage.detectedLine msg.detection_time_sec
    ∧ AlertMessage.format_telegram
        { msg with announcement_type := strL "QUARTERLY_RESULT" } ≠ []
    ∧ AlertMessage.format_telegram
        { msg with announcement_type := strL "EARNINGS_CALL" } ≠ []
    ∧ AlertMessage.format_telegram
        { msg with announcement_type := strL "NEWS_ARTICLE" } ≠ []
    ∧ AlertMessage.format_telegram
        { msg with announcement_type := strL "CORPORATE_ACTION" } ≠ [] := by
  refine ⟨?_, ?_, ?_, ?_, ?_, ?_, ?_, ?_⟩ <;>
    simp [AlertMessage.format_telegram, AlertMessage.formatResultAlert,
      AlertMessage.formatEarningsCallAlert, AlertMessage.formatNewsAlert,
      AlertMessage.formatCorporateActionAlert, truthy,
      h1, h2, h3, ha1, ha2, ha3, ha4, ha5, strL, chartIcon, micIcon, newsIcon,
      bellIcon, boltIcon, AlertMessage.detectedLine]

/-- C9 witness: the concrete all-null message instantiates the amended
theorem; its news rendering is the fixed skeleton without figures. -/
theorem claim_C9_witness :
    AlertMessage.format_telegram
        { msgC9 with announcement_type := strL "NEWS_ARTICLE" }
      = newsIcon ++ strL " **" ++ msgC9.symbol ++ strL " - Market News**\n\n"
        ++ bulbIcon ++ strL " **Source:** News Article\n"
        ++ AlertMessage.detectedLine msgC9.detection_time_sec :=
  (claim_C9_theorem msgC9 rfl rfl rfl rfl rfl rfl rfl rfl).2.2.1

/-- C9 counterexample: with all metrics numeric fields null, the news-article
template renders no N/A placeholder at all (while still producing a non-empty
string), so the claim that every numeric field is rendered as the placeholder
under every template is false. -/
theorem claim_C9_counterexample :
    ¬ (strL "N/A" <:+: AlertMessage.format_telegram msgC9)
    ∧ AlertMessage.format_telegram msgC9 ≠ [] := by
  set_option maxRecDepth 10000 in decide

/-- C10: classify reads the attachment text only through its first 1000
characters and the 5000-character length test: equal truncations and an
equivalent length test give identical classifications for any description
and source. -/
theorem claim_C10_theorem (d s a1 a2 : List Char)
    (h1 : a1.take 1000 = a2.take 1000)
    (h2 : 5000 < a1.length ↔ 5000 < a2.length) :
    AnnouncementClassifier.classify d a1 s
      = AnnouncementClassifier.classify d a2 s := by
  unfold AnnouncementClassifier.classify AnnouncementClassifier.combinedText
  rw [h1, decide_eq_decide.mpr h2]

/-- C10 witness: two 1200-character attachments agreeing on their first 1000
characters and both at most 5000 characters long classify identically. -/
theorem claim_C10_witness :
    AnnouncementClassifier.classify (strL "update")
        (List.replicate 1200 'a') (strL "nse")
      = AnnouncementClassifier.classify (strL "update")
        (List.replicate 1200 'a' ++ [' ']) (strL "nse") :=
  claim_C10_theorem _ _ _ _
    (by rw [List.take_append_of_le_length (by rw [List.length_replicate]; decide)])
    (by rw [List.length_append, List.length_replicate, List.length_cons,
          List.length_nil]
        decide)
